import Mathlib

/-!
Verification of the SnapLock monitoring lifecycle controller.

The definitions below are a shallow embedding of the Rust sources under
`src-tauri/src` (`state.rs`, `handlers.rs`, `monitoring.rs`, `recorder.rs`,
`constants.rs`).  Pure functions are translated directly; stateful code is
translated into explicit state passing over record types; timestamps
(`Instant`, epoch milliseconds) are modelled as `Nat` milliseconds, with
Rust's `saturating_sub` matching `Nat` subtraction.  External effects that
never feed back into the controller state (taking a photo, showing a
notification, running the OS lock command, logging) are dropped from the
model; fields that do feed back (status, atomic flags, task-handle liveness,
the ffmpeg recording process guard) are kept.
-/

/-- `MonitoringState` from `state.rs`: the session lifecycle state. -/
inductive MonitoringState where
  | Idle
  | Preparing
  | Active
  | Triggered
deriving DecidableEq, Repr

/-- `MonitoringState::transition_to` from `state.rs`: the fixed transition
table; invalid pairs return `Err("Invalid state transition")`. -/
def transition_to (s next_state : MonitoringState) : Except String MonitoringState :=
  match s, next_state with
  | .Idle, .Preparing => .ok next_state
  | .Preparing, .Active => .ok next_state
  | .Preparing, .Idle => .ok next_state
  | .Active, .Triggered => .ok next_state
  | .Active, .Idle => .ok next_state
  | .Triggered, .Idle => .ok next_state
  | _, .Idle => .ok next_state
  | _, _ => .error "Invalid state transition"

/-- `AppState::set_status` from `state.rs`, acting on the status value held
behind the mutex: on a valid transition the stored status becomes the new
state and the call reports success; otherwise the status is unchanged and
the call reports failure. -/
def set_status (s : MonitoringState) (new_status : MonitoringState) :
    MonitoringState × Bool :=
  match transition_to s new_status with
  | .ok st => (st, true)
  | .error _ => (s, false)

/-- A sequence of `n` attempts to `set_status` to `Triggered`, as performed by
racing input-event callbacks; returns the final status and how many attempts
succeeded. -/
def triggerAttempts : Nat → MonitoringState → MonitoringState × Nat
  | 0, s => (s, 0)
  | n + 1, s =>
    let r := set_status s .Triggered
    let rest := triggerAttempts n r.1
    (rest.1, (if r.2 then 1 else 0) + rest.2)

/-- The subset of the `rdev::Key` enum referenced by the controller: the
modifier keys matched explicitly in `handle_key_press`, the 26 letter keys,
and a few representative non-letter keys.  Constructor names follow the
`rdev` debug names. -/
inductive RKey where
  | Alt | AltGr
  | ControlLeft | ControlRight
  | ShiftLeft | ShiftRight
  | MetaLeft | MetaRight
  | KeyA | KeyB | KeyC | KeyD | KeyE | KeyF | KeyG | KeyH | KeyI | KeyJ
  | KeyK | KeyL | KeyM | KeyN | KeyO | KeyP | KeyQ | KeyR | KeyS | KeyT
  | KeyU | KeyV | KeyW | KeyX | KeyY | KeyZ
  | Space | Return | Tab | CapsLock | UpArrow | DownArrow
deriving DecidableEq, Repr

/-- The Rust `format!("{:?}", key)` debug name of a key. -/
def keyName : RKey → String
  | .Alt => "Alt" | .AltGr => "AltGr"
  | .ControlLeft => "ControlLeft" | .ControlRight => "ControlRight"
  | .ShiftLeft => "ShiftLeft" | .ShiftRight => "ShiftRight"
  | .MetaLeft => "MetaLeft" | .MetaRight => "MetaRight"
  | .KeyA => "KeyA" | .KeyB => "KeyB" | .KeyC => "KeyC" | .KeyD => "KeyD"
  | .KeyE => "KeyE" | .KeyF => "KeyF" | .KeyG => "KeyG" | .KeyH => "KeyH"
  | .KeyI => "KeyI" | .KeyJ => "KeyJ" | .KeyK => "KeyK" | .KeyL => "KeyL"
  | .KeyM => "KeyM" | .KeyN => "KeyN" | .KeyO => "KeyO" | .KeyP => "KeyP"
  | .KeyQ => "KeyQ" | .KeyR => "KeyR" | .KeyS => "KeyS" | .KeyT => "KeyT"
  | .KeyU => "KeyU" | .KeyV => "KeyV" | .KeyW => "KeyW" | .KeyX => "KeyX"
  | .KeyY => "KeyY" | .KeyZ => "KeyZ"
  | .Space => "Space" | .Return => "Return" | .Tab => "Tab"
  | .CapsLock => "CapsLock" | .UpArrow => "UpArrow" | .DownArrow => "DownArrow"

/-- Mouse buttons of `rdev::Button`. -/
inductive RButton where
  | Left | Right | Middle
deriving DecidableEq, Repr

/-- `rdev::EventType`: keyboard, mouse-button, mouse-move and wheel events.
The numeric payloads are never inspected by the controller, so the `f64`
coordinates of `MouseMove` are modelled as integers. -/
inductive EventType where
  | KeyPress (key : RKey)
  | KeyRelease (key : RKey)
  | ButtonPress (button : RButton)
  | ButtonRelease (button : RButton)
  | MouseMove (x y : Int)
  | Wheel (delta_x delta_y : Int)
deriving DecidableEq, Repr

/-- Splitting a character list at `'+'`, accumulating the current segment in
reverse; models Rust `str::split('+')` (structurally recursive so that
concrete instances reduce). -/
def splitPlusAux : List Char -> List Char -> List String
  | [], acc => [String.mk acc.reverse]
  | c :: cs, acc =>
    if c = '+' then String.mk acc.reverse :: splitPlusAux cs []
    else splitPlusAux cs (c :: acc)

/-- Models Rust `str::split('+')` (also the behaviour of `String.splitOn
"+"`): the `'+'`-separated parts of a string, empty segments included. -/
def splitPlus (s : String) : List String :=
  splitPlusAux s.toList []

/-- Models Rust `<[_]>::starts_with` on character lists: the first list is an
initial segment of the second. -/
def listLeads : List Char → List Char → Bool
  | [], _ => true
  | _ :: _, [] => false
  | a :: as, b :: bs => a == b && listLeads as bs

/-- Models Rust `str::contains(pat)` at some position of the character list. -/
def listHasSub (pat : List Char) : List Char → Bool
  | [] => listLeads pat []
  | b :: bs => listLeads pat (b :: bs) || listHasSub pat bs

/-- Models Rust `str::contains` for plain string patterns. -/
def strContains (s pat : String) : Bool :=
  listHasSub pat.toList s.toList

/-- `handle_key_press` from `monitoring.rs`: returns `true` when the event is
a key press/release that should be ignored because it matches the currently
configured shortcut string (`current_shortcut`).  Modifier keys are compared
against the literal part names `"Alt"`, `"Ctrl"`, `"Shift"`, `"Meta"`; every
other key is compared by substring containment of its debug name against the
last `'+'`-separated part, with an extra explicit letter-key list. -/
def handle_key_press (current_shortcut : String) (ev : EventType) : Bool :=
  match ev with
  | .KeyPress key | .KeyRelease key =>
    let parts : List String := splitPlus current_shortcut
    if parts.isEmpty then false
    else
      let main_key := parts.getLastD ""
      match key with
      | .Alt | .AltGr => parts.contains "Alt"
      | .ControlLeft | .ControlRight => parts.contains "Ctrl"
      | .ShiftLeft | .ShiftRight => parts.contains "Shift"
      | .MetaLeft | .MetaRight => parts.contains "Meta"
      | _ =>
        strContains (keyName key) main_key ||
        (main_key == "L" && key == .KeyL) ||
        (main_key == "D" && key == .KeyD) ||
        (main_key == "S" && key == .KeyS) ||
        (main_key == "A" && key == .KeyA) ||
        (main_key == "Q" && key == .KeyQ) ||
        (main_key == "W" && key == .KeyW) ||
        (main_key == "E" && key == .KeyE) ||
        (main_key == "R" && key == .KeyR) ||
        (main_key == "T" && key == .KeyT) ||
        (main_key == "Y" && key == .KeyY) ||
        (main_key == "U" && key == .KeyU) ||
        (main_key == "I" && key == .KeyI) ||
        (main_key == "O" && key == .KeyO) ||
        (main_key == "P" && key == .KeyP) ||
        (main_key == "F" && key == .KeyF) ||
        (main_key == "G" && key == .KeyG) ||
        (main_key == "H" && key == .KeyH) ||
        (main_key == "J" && key == .KeyJ) ||
        (main_key == "K" && key == .KeyK) ||
        (main_key == "Z" && key == .KeyZ) ||
        (main_key == "X" && key == .KeyX) ||
        (main_key == "C" && key == .KeyC) ||
        (main_key == "V" && key == .KeyV) ||
        (main_key == "B" && key == .KeyB) ||
        (main_key == "N" && key == .KeyN) ||
        (main_key == "M" && key == .KeyM)
  | _ => false

/-- `is_valid_shortcut` from `handlers.rs`: at least two `'+'`-separated
parts, every non-final part one of the five modifier names, and a final part
that is non-empty and not itself a modifier name. -/
def is_valid_shortcut (shortcut : String) : Bool :=
  let parts : List String := splitPlus shortcut
  if parts.length < 2 then false
  else
    let modifiers := parts.dropLast
    let key := parts.getLastD ""
    modifiers.all (fun m =>
      m == "Ctrl" || m == "Alt" || m == "Shift" || m == "Meta" || m == "Cmd") &&
    !(key == "") &&
    !(key == "Ctrl" || key == "Alt" || key == "Shift" || key == "Meta" ||
      key == "Cmd")

/-- `MonitoringFlags` from `state.rs`.  `thread_alive` models
`is_monitoring_thread_alive()`: `monitoring_handle` is `Some` and the task is
not finished.  Timestamps are epoch milliseconds. -/
structure MonFlags where
  monitoring_active : Bool
  shortcut_in_progress : Bool
  last_shortcut_time : Nat
  last_activity_time : Nat
  thread_alive : Bool
deriving DecidableEq, Repr

/-- `EVENT_IGNORE_WINDOW_MS` from `constants.rs`. -/
def EVENT_IGNORE_WINDOW_MS : Nat := 500

/-- `SHORTCUT_DEBOUNCE_TIME` from `constants.rs`, in milliseconds. -/
def SHORTCUT_DEBOUNCE_TIME_MS : Nat := 500

/-- `MonitoringFlags::health_check` from `state.rs`: healthy iff the armed
flag agrees with thread liveness; when armed but the thread is dead, the
armed flag is cleared; returns the (pre-repair) health verdict. -/
def health_check (f : MonFlags) : MonFlags × Bool :=
  let is_healthy := f.monitoring_active == f.thread_alive
  if f.monitoring_active && !f.thread_alive then
    ({ f with monitoring_active := false }, is_healthy)
  else
    (f, is_healthy)

/-- `MonitoringFlags::stop_monitoring_thread` from `state.rs`: the handles
are taken and aborted (so liveness checks fail afterwards) and the armed
flag is cleared. -/
def stop_monitoring_thread (f : MonFlags) : MonFlags :=
  { f with thread_alive := false, monitoring_active := false }

/-- `MonitoringFlags::start_monitoring_atomic` from `state.rs`: if already
armed, the freshly created listener task is aborted and the call fails;
otherwise the handle is stored and the armed flag set, atomically. -/
def start_monitoring_atomic (f : MonFlags) : MonFlags × Bool :=
  if f.monitoring_active then (f, false)
  else ({ f with thread_alive := true, monitoring_active := true }, true)

/-- `PostTriggerAction` from `config.rs`: the configured response mode. -/
inductive PostTriggerAction where
  | CaptureAndLock
  | CaptureOnly
  | ScreenRecording
deriving DecidableEq, Repr

/-- The fields of `AppState` read by the input callback. -/
structure CbState where
  status : MonitoringState
  shortcut_key : String
  post_trigger_action : PostTriggerAction
deriving DecidableEq, Repr

/-- Result of one invocation of the `rdev` callback in `monitoring.rs`:
the updated flags and status, the status strings emitted, whether the
`Active→Triggered` transition was attempted, and whether the lockdown
thread was spawned (the attempt succeeded). -/
structure CbResult where
  flags : MonFlags
  status : MonitoringState
  emitted : List String
  attempted_trigger : Bool
  spawned_lockdown : Bool
deriving DecidableEq, Repr

/-- `callback` from `monitoring.rs`, one invocation at time `now` (epoch
milliseconds): update the activity timestamp while armed, then run the
short-circuit chain — not armed / dead listener thread (self-heal) /
shortcut settling flag / post-shortcut ignore window / hotkey key filter /
screen-recording mode — and finally attempt `Active→Triggered`; on success
clear the armed flag and spawn the lockdown thread. -/
def callback (ev : EventType) (now : Nat) (st : CbState) (f : MonFlags) :
    CbResult :=
  let f := if f.monitoring_active then { f with last_activity_time := now } else f
  if !f.monitoring_active then
    ⟨f, st.status, [], false, false⟩
  else if !f.thread_alive then
    let f := { f with monitoring_active := false }
    let r := set_status st.status .Idle
    ⟨f, r.1, if r.2 then ["空闲"] else [], false, false⟩
  else if f.shortcut_in_progress then
    ⟨f, st.status, [], false, false⟩
  else if now - f.last_shortcut_time < EVENT_IGNORE_WINDOW_MS then
    ⟨f, st.status, [], false, false⟩
  else if handle_key_press st.shortcut_key ev then
    ⟨f, st.status, [], false, false⟩
  else if st.post_trigger_action = .ScreenRecording then
    ⟨f, st.status, [], false, false⟩
  else
    let r := set_status st.status .Triggered
    if !r.2 then
      ⟨f, r.1, [], true, false⟩
    else
      ⟨{ f with monitoring_active := false }, r.1, [], true, true⟩

/-- A whole sequence of callback invocations (event, timestamp pairs),
threading status and flags, counting how many invocations spawned the
lockdown thread (i.e. won the `Active→Triggered` transition). -/
def run_callbacks : List (EventType × Nat) → CbState → MonFlags → Nat
  | [], _, _ => 0
  | (ev, now) :: rest, st, f =>
    let r := callback ev now st f
    (if r.spawned_lockdown then 1 else 0) +
      run_callbacks rest { st with status := r.status } r.flags

/-- The canonical modifier-name of a physical modifier key, as used by the
claim's notion of "the hotkey's modifier set" (`Ctrl`/`Alt`/`Shift`/`Meta`);
`none` for non-modifier keys. -/
def canonical_modifier : RKey → Option String
  | .Alt | .AltGr => some "Alt"
  | .ControlLeft | .ControlRight => some "Ctrl"
  | .ShiftLeft | .ShiftRight => some "Shift"
  | .MetaLeft | .MetaRight => some "Meta"
  | _ => none

/-- Whether an event is a keyboard press or release. -/
def isKeyEvent : EventType → Bool
  | .KeyPress _ | .KeyRelease _ => true
  | _ => false

/-- Configuration snapshot taken by `trigger_lockdown` (the fields that
influence its control flow). -/
structure LockdownCfg where
  exit_on_lock : Bool
  post_trigger_action : PostTriggerAction
deriving DecidableEq, Repr

/-- Outcome of `trigger_lockdown`: final status, emitted status strings, and
whether `std::process::exit` was reached. -/
structure LockdownResult where
  status : MonitoringState
  emitted : List String
  exited : Bool
deriving DecidableEq, Repr

/-- `trigger_lockdown` from `monitoring.rs`: abort silently unless the status
is still `Triggered`; emit the "locking" status; (capture / recording /
notification / OS lock are external effects with no feedback into the
controller state); if exit-on-lock is enabled terminate the process;
otherwise in `CaptureOnly` mode transition back to `Idle` and emit the idle
status, and in the other modes leave the status at `Triggered`. -/
def trigger_lockdown (status : MonitoringState) (cfg : LockdownCfg) :
    LockdownResult :=
  if status ≠ .Triggered then ⟨status, [], false⟩
  else
    let emitted := ["锁定中"]
    if cfg.exit_on_lock then ⟨status, emitted, true⟩
    else if cfg.post_trigger_action = .CaptureOnly then
      let r := set_status status .Idle
      ⟨r.1, emitted ++ (if r.2 then ["空闲"] else []), false⟩
    else ⟨status, emitted, false⟩

/-- The state touched by the toggle handler: the session status, the shared
flags, and the debouncer's "last accepted toggle" instant (milliseconds). -/
structure ToggleSys where
  status : MonitoringState
  flags : MonFlags
  last_toggle_time : Nat
deriving DecidableEq, Repr

/-- Result of one `toggle_monitoring` call: the updated state, the emitted
status strings, whether the call survived the debounce check, and which
delayed tasks (2 s preparation timer, 1 s settling-flag clear) it spawned. -/
structure ToggleResult where
  sys : ToggleSys
  emitted : List String
  accepted : Bool
  scheduled_preparation : Bool
  scheduled_flag_clear : Bool
deriving DecidableEq, Repr

/-- `toggle_monitoring` from `handlers.rs` up to its spawned tasks: run the
health check, reject inside the 500 ms debounce window (leaving the last
accepted instant unchanged), otherwise record the instant, set the
shortcut-settling flags, spawn the flag-clear task, and branch on the
status: from `Idle` transition to `Preparing`, emit, and spawn the
preparation timer (modelled separately as `preparation_timer_body`); from
`Preparing`/`Active` stop the listener thread if active and reset to `Idle`.
The source `match` has no arm for `Triggered`; that case is modelled as
leaving the status unchanged.  `now` stands for both the `Instant` clock of
the debouncer and the epoch-millisecond clock of the flags. -/
def toggle_monitoring (now : Nat) (sys : ToggleSys) : ToggleResult :=
  let f := (health_check sys.flags).1
  if now - sys.last_toggle_time < SHORTCUT_DEBOUNCE_TIME_MS then
    ⟨⟨sys.status, f, sys.last_toggle_time⟩, [], false, false, false⟩
  else
    let f := { f with last_shortcut_time := now, shortcut_in_progress := true }
    match sys.status with
    | .Idle =>
      let r := set_status sys.status .Preparing
      if r.2 then ⟨⟨r.1, f, now⟩, ["准备中"], true, true, true⟩
      else ⟨⟨r.1, f, now⟩, [], true, false, true⟩
    | .Preparing =>
      let r := set_status sys.status .Idle
      if r.2 then ⟨⟨r.1, f, now⟩, ["空闲"], true, false, true⟩
      else ⟨⟨r.1, f, now⟩, [], true, false, true⟩
    | .Active =>
      let f := stop_monitoring_thread f
      let r := set_status sys.status .Idle
      if r.2 then ⟨⟨r.1, f, now⟩, ["空闲"], true, false, true⟩
      else ⟨⟨r.1, f, now⟩, [], true, false, true⟩
    | .Triggered => ⟨⟨sys.status, f, now⟩, [], true, false, true⟩

/-- Result of the delayed preparation task: final status and flags, emitted
status strings, and whether the listener ended up started. -/
structure PrepResult where
  status : MonitoringState
  flags : MonFlags
  emitted : List String
  listener_started : Bool
deriving DecidableEq, Repr

/-- The preparation task spawned by `toggle_monitoring` (`handlers.rs`):
after the 2 s delay, re-read the status; if it is no longer `Preparing`
(user cancelled) do nothing; otherwise transition to `Active` and try to
start the listener — `listener_created` models whether
`monitoring::start_monitoring` could build its runtime — storing the handle
atomically; on a creation or atomic-start failure reset to `Idle` and emit
the idle status. -/
def preparation_timer_body (status : MonitoringState) (f : MonFlags)
    (listener_created : Bool) : PrepResult :=
  if status ≠ .Preparing then ⟨status, f, [], false⟩
  else
    let r := set_status status .Active
    if !r.2 then ⟨r.1, f, [], false⟩
    else if listener_created then
      let a := start_monitoring_atomic f
      if a.2 then ⟨r.1, a.1, ["警戒中"], true⟩
      else
        let r2 := set_status r.1 .Idle
        ⟨r2.1, a.1, ["空闲"], false⟩
    else
      let r2 := set_status r.1 .Idle
      ⟨r2.1, f, ["空闲"], false⟩

/-- `recorder::start_screen_recording` reduced to its effect on the
`FFMPEG_PROCESS` guard (`recorder.rs`): if a recording process is already
stored the request is skipped and nothing is started; otherwise a process is
spawned and stored.  Returns the new guard state and whether a recording was
actually started. -/
def start_screen_recording (recording : Bool) : Bool × Bool :=
  if recording then (recording, false) else (true, true)

/-- Outcome of one 5-second tick of the idle supervisor loop. -/
structure IdleTickResult where
  recording : Bool
  stopped_recording : Bool
  requested_start : Bool
  loop_terminated : Bool
deriving DecidableEq, Repr

/-- One iteration of the loop body of `start_idle_check_loop`
(`monitoring.rs`): exit the loop if monitoring is no longer active;
otherwise compute the idle time (saturating subtraction), stop the recording
when idle for more than 20000 ms with a recording running, and request a
start when idle for at most 20000 ms with none running (the start request
goes through `start_screen_recording`, whose guard makes a duplicate request
a no-op). -/
def idle_check_tick (monitoring_active : Bool) (current_time last_activity : Nat)
    (recording : Bool) : IdleTickResult :=
  if !monitoring_active then ⟨recording, false, false, true⟩
  else
    let idle_time_ms := current_time - last_activity
    if idle_time_ms > 20000 && recording then ⟨false, true, false, false⟩
    else if idle_time_ms ≤ 20000 && !recording then
      let r := start_screen_recording recording
      ⟨r.1, false, true, false⟩
    else ⟨recording, false, false, false⟩

/-- The `set_shortcut_key` command from `handlers.rs`, acting on the stored
shortcut string: the format is validated first, and an invalid string is
rejected with an error before any state is touched; on a valid string the
stored key is updated and the global shortcut re-registered (an external
call modelled by `register_ok`), a registration failure reverting the
stored key and returning an error. -/
def set_shortcut_key (stored : String) (shortcut : String)
    (register_ok : Bool) : String × Except String Unit :=
  if !is_valid_shortcut shortcut then (stored, .error "无效的快捷键格式")
  else if register_ok then (shortcut, .ok ())
  else (stored, .error "快捷键注册失败")

/-- C1: the transition function succeeds for exactly the pairs
Idle→Preparing, Preparing→Active, Preparing→Idle, Active→Triggered,
Active→Idle, Triggered→Idle and X→Idle for every X; every other pair
returns the `InvalidTransition` error, and a successful transition yields
exactly the requested state. -/
theorem transition_table_characterization (s n : MonitoringState) :
    (transition_to s n = .ok n ↔
      ((s = .Idle ∧ n = .Preparing) ∨ (s = .Preparing ∧ n = .Active) ∨
       (s = .Preparing ∧ n = .Idle) ∨ (s = .Active ∧ n = .Triggered) ∨
       (s = .Active ∧ n = .Idle) ∨ (s = .Triggered ∧ n = .Idle) ∨
       n = .Idle)) ∧
    (transition_to s n = .ok n ∨
      transition_to s n = .error "Invalid state transition") := by
  cases s <;> cases n <;> simp [transition_to]

/-- C2 helper: from `Triggered`, every further attempt to transition to
`Triggered` fails and the state stays `Triggered`. -/
theorem triggerAttempts_from_triggered (n : Nat) :
    triggerAttempts n .Triggered = (.Triggered, 0) := by
  induction n with
  | zero => rfl
  | succ k ih => simp [triggerAttempts, set_status, transition_to, ih]

/-- A callback invoked while the status is not `Active` never spawns the
lockdown thread, and cannot move the status to `Active`. -/
theorem callback_nonactive (ev : EventType) (now : Nat) (st : CbState)
    (f : MonFlags) (h : st.status ≠ .Active) :
    (callback ev now st f).spawned_lockdown = false ∧
    (callback ev now st f).status ≠ .Active := by
  obtain ⟨s, sk, act⟩ := st
  simp only at h
  cases s <;>
    simp_all [callback, set_status, transition_to] <;>
    split_ifs <;> simp_all

/-- From a non-`Active` status no invocation in a callback sequence ever
spawns the lockdown thread. -/
theorem run_callbacks_nonactive (evs : List (EventType × Nat)) :
    ∀ (st : CbState) (f : MonFlags), st.status ≠ .Active →
      run_callbacks evs st f = 0 := by
  induction evs with
  | nil => intro st f _; rfl
  | cons p rest ih =>
    intro st f h
    obtain ⟨ev, now⟩ := p
    have hc := callback_nonactive ev now st f h
    simp only [run_callbacks, hc.1]
    rw [if_neg Bool.false_ne_true, Nat.zero_add]
    exact ih { st with status := (callback ev now st f).status }
      (callback ev now st f).flags hc.2

set_option maxHeartbeats 1000000 in
/-- A successful trigger leaves the status at `Triggered`. -/
theorem callback_spawn_status (ev : EventType) (now : Nat) (st : CbState)
    (f : MonFlags) :
    (callback ev now st f).spawned_lockdown = true →
    (callback ev now st f).status = .Triggered := by
  obtain ⟨s, sk, act⟩ := st
  cases s <;>
    simp only [callback, set_status, transition_to] <;>
    split_ifs <;> simp_all

/-- C2: over any sequence of input-event callback invocations, from any
starting status and flags, at most one invocation wins the
`Active→Triggered` transition and spawns the lockdown; moreover, iterated
raw `set_status(Triggered)` attempts from `Active` succeed exactly once and
every further attempt from `Triggered` fails. -/
theorem at_most_one_trigger_per_session (evs : List (EventType × Nat))
    (st : CbState) (f : MonFlags) (n : Nat) :
    run_callbacks evs st f ≤ 1 ∧
    triggerAttempts (n + 1) .Active = (.Triggered, 1) ∧
    triggerAttempts n .Triggered = (.Triggered, 0) := by
  refine ⟨?_, ?_, triggerAttempts_from_triggered n⟩
  · induction evs generalizing st f with
    | nil => exact Nat.zero_le 1
    | cons p rest ih =>
      obtain ⟨ev, now⟩ := p
      by_cases hs : (callback ev now st f).spawned_lockdown = true
      · have ht := callback_spawn_status ev now st f hs
        simp only [run_callbacks, hs, if_true]
        have hz : run_callbacks rest
            { st with status := (callback ev now st f).status }
            (callback ev now st f).flags = 0 := by
          apply run_callbacks_nonactive
          simp [ht]
        omega
      · simp only [run_callbacks, hs, if_false]
        calc 0 + run_callbacks rest
              { st with status := (callback ev now st f).status }
              (callback ev now st f).flags
            = run_callbacks rest
              { st with status := (callback ev now st f).status }
              (callback ev now st f).flags := Nat.zero_add _
          _ ≤ 1 := ih { st with status := (callback ev now st f).status }
              (callback ev now st f).flags
  · simp [triggerAttempts, set_status, transition_to, triggerAttempts_from_triggered]

/-- C4: when the callback runs armed but with a dead (or absent) listener
handle it clears the armed flag, forces the status to `Idle`, emits the idle
status string, and attempts no trigger; and `health_check`, under the same
inconsistency, clears the armed flag and reports the failure. -/
theorem self_healing (ev : EventType) (now : Nat) (st : CbState)
    (f : MonFlags) (harmed : f.monitoring_active = true)
    (hdead : f.thread_alive = false) :
    (callback ev now st f).flags.monitoring_active = false ∧
    (callback ev now st f).status = .Idle ∧
    (callback ev now st f).emitted = ["空闲"] ∧
    (callback ev now st f).attempted_trigger = false ∧
    (callback ev now st f).spawned_lockdown = false ∧
    (health_check f).1.monitoring_active = false ∧
    (health_check f).2 = false := by
  obtain ⟨s, sk, act⟩ := st
  cases s <;>
    simp [callback, health_check, set_status, transition_to, harmed, hdead]

/-- Witness for C4 at a concrete armed-but-dead configuration. -/
theorem self_healing_witness :
    (callback (.MouseMove 3 4) 1000 ⟨.Active, "Alt+L", .CaptureAndLock⟩
        ⟨true, false, 0, 0, false⟩).status = .Idle ∧
    (health_check ⟨true, false, 0, 0, false⟩).2 = false :=
  ⟨(self_healing (.MouseMove 3 4) 1000 ⟨.Active, "Alt+L", .CaptureAndLock⟩
      ⟨true, false, 0, 0, false⟩ rfl rfl).2.1,
   (self_healing (.MouseMove 3 4) 1000 ⟨.Active, "Alt+L", .CaptureAndLock⟩
      ⟨true, false, 0, 0, false⟩ rfl rfl).2.2.2.2.2.2⟩

/-- C3 counterexample: the shortcut string "Alt+ControlLeft" is accepted by
the validator and its main key is the literal key name "ControlLeft", yet a
`ControlLeft` key press is not filtered (the `ControlLeft` match arm only
consults the part name "Ctrl"), and an armed callback outside the settling
and ignore windows then performs the `Active→Triggered` transition. -/
theorem hotkey_self_immunity_counterexample :
    is_valid_shortcut "Alt+ControlLeft" = true ∧
    (splitPlus "Alt+ControlLeft").getLastD "" = "ControlLeft" ∧
    keyName .ControlLeft = "ControlLeft" ∧
    handle_key_press "Alt+ControlLeft" (.KeyPress .ControlLeft) = false ∧
    (callback (.KeyPress .ControlLeft) 1000
        ⟨.Active, "Alt+ControlLeft", .CaptureAndLock⟩
        ⟨true, false, 0, 0, true⟩).attempted_trigger = true ∧
    (callback (.KeyPress .ControlLeft) 1000
        ⟨.Active, "Alt+ControlLeft", .CaptureAndLock⟩
        ⟨true, false, 0, 0, true⟩).status = .Triggered := by
  refine ⟨?_, ?_, rfl, ?_, ?_, ?_⟩ <;> decide

/-- C3 (amended): for a validator-accepted hotkey string, a key press or
release is filtered before the trigger attempt — and the callback therefore
never attempts `Active→Triggered` on it — whenever the key is a modifier key
whose canonical part name (`Ctrl`/`Alt`/`Shift`/`Meta`) occurs among the
hotkey's parts, or a non-modifier key whose debug name contains the
hotkey's main part; a modifier key named only by the main part (or by a
`Cmd` part) is not filtered. -/
theorem hotkey_self_immunity_amended (s : String) (k : RKey) (ev : EventType)
    (hev : ev = .KeyPress k ∨ ev = .KeyRelease k)
    (hv : is_valid_shortcut s = true)
    (hk : (∃ m, canonical_modifier k = some m ∧ (splitPlus s).contains m) ∨
          (canonical_modifier k = none ∧
           strContains (keyName k) ((splitPlus s).getLastD "") = true)) :
    handle_key_press s ev = true ∧
    ∀ (now : Nat) (f : MonFlags) (st : CbState), st.shortcut_key = s →
      (callback ev now st f).attempted_trigger = false ∧
      (callback ev now st f).spawned_lockdown = false := by
  have hlen : ¬ (splitPlus s).length < 2 := by
    intro hl
    simp [is_valid_shortcut, hl] at hv
  have hne : (splitPlus s).isEmpty = false := by
    cases e : splitPlus s with
    | nil => rw [e] at hlen; exact absurd (by decide) hlen
    | cons a l => rfl
  have hfilter : handle_key_press s ev = true := by
    rcases hev with rfl | rfl <;>
      cases k <;> simp_all [handle_key_press, canonical_modifier, hne]
  refine ⟨hfilter, ?_⟩
  intro now f st hsk
  constructor <;>
    · simp only [callback, hsk, hfilter]
      split_ifs <;> simp

/-- Witness for the amended C3: with hotkey "Ctrl+Alt+L", a `ControlLeft`
press is filtered and an armed callback does not attempt the trigger. -/
theorem hotkey_self_immunity_witness :
    handle_key_press "Ctrl+Alt+L" (.KeyPress .ControlLeft) = true ∧
    (callback (.KeyPress .ControlLeft) 1000
        ⟨.Active, "Ctrl+Alt+L", .CaptureAndLock⟩
        ⟨true, false, 0, 0, true⟩).attempted_trigger = false :=
  have h := hotkey_self_immunity_amended "Ctrl+Alt+L" .ControlLeft
    (.KeyPress .ControlLeft) (Or.inl rfl) (by decide)
    (Or.inl ⟨"Ctrl", rfl, by decide⟩)
  ⟨h.1, (h.2 1000 ⟨true, false, 0, 0, true⟩
    ⟨.Active, "Ctrl+Alt+L", .CaptureAndLock⟩ rfl).1⟩

/-- C10: the hotkey filter suppresses only keyboard events — for any mouse
move, mouse button or wheel event it returns `false` for every configured
shortcut — and such an event, delivered while armed with a live listener,
outside the settling flag and ignore window, in a non-`ScreenRecording`
mode, always reaches the `Active→Triggered` attempt. -/
theorem nonkey_event_reaches_trigger (ev : EventType) (now : Nat)
    (st : CbState) (f : MonFlags)
    (hev : isKeyEvent ev = false)
    (harmed : f.monitoring_active = true)
    (halive : f.thread_alive = true)
    (hsp : f.shortcut_in_progress = false)
    (hwin : ¬ now - f.last_shortcut_time < EVENT_IGNORE_WINDOW_MS)
    (hmode : st.post_trigger_action ≠ .ScreenRecording) :
    (∀ (sc : String), handle_key_press sc ev = false) ∧
    (callback ev now st f).attempted_trigger = true := by
  have hhk : ∀ (sc : String), handle_key_press sc ev = false := by
    intro sc
    cases ev <;> simp_all [isKeyEvent, handle_key_press]
  refine ⟨hhk, ?_⟩
  obtain ⟨s, sk, act⟩ := st
  simp only at hmode
  cases s <;>
    simp [callback, set_status, transition_to, harmed, halive, hsp, hwin,
      hhk, hmode]

/-- Witness for C10: a mouse-move event in an armed `CaptureAndLock`
session reaches the trigger attempt. -/
theorem nonkey_event_reaches_trigger_witness :
    (callback (.MouseMove 5 6) 1000 ⟨.Active, "Alt+L", .CaptureAndLock⟩
        ⟨true, false, 0, 0, true⟩).attempted_trigger = true :=
  (nonkey_event_reaches_trigger (.MouseMove 5 6) 1000
    ⟨.Active, "Alt+L", .CaptureAndLock⟩ ⟨true, false, 0, 0, true⟩
    rfl rfl rfl rfl (by decide) (by decide)).2

/-- C5: the lockdown orchestrator is a no-op when the status is not
`Triggered`; with exit-on-lock enabled it terminates the process; with it
disabled it ends `Idle` (emitting the idle status) exactly for the
`CaptureOnly` action and stays `Triggered` for `CaptureAndLock` and
`ScreenRecording`. -/
theorem lockdown_orchestrator (status : MonitoringState) (cfg : LockdownCfg) :
    (status ≠ .Triggered → trigger_lockdown status cfg = ⟨status, [], false⟩) ∧
    (cfg.exit_on_lock = true →
      trigger_lockdown .Triggered cfg = ⟨.Triggered, ["锁定中"], true⟩) ∧
    (cfg.exit_on_lock = false →
      ((trigger_lockdown .Triggered cfg).status = .Idle ↔
        cfg.post_trigger_action = .CaptureOnly)) ∧
    (cfg.exit_on_lock = false → cfg.post_trigger_action = .CaptureOnly →
      trigger_lockdown .Triggered cfg = ⟨.Idle, ["锁定中", "空闲"], false⟩) ∧
    (cfg.exit_on_lock = false → cfg.post_trigger_action ≠ .CaptureOnly →
      trigger_lockdown .Triggered cfg = ⟨.Triggered, ["锁定中"], false⟩) ∧
    ((trigger_lockdown status cfg).exited = true ↔
      (status = .Triggered ∧ cfg.exit_on_lock = true)) := by
  obtain ⟨e, a⟩ := cfg
  cases status <;> cases e <;> cases a <;> decide

/-- Witness for C5: `CaptureOnly` with exit-on-lock disabled self-resets to
`Idle`. -/
theorem lockdown_orchestrator_witness :
    trigger_lockdown .Triggered ⟨false, .CaptureOnly⟩ =
      ⟨.Idle, ["锁定中", "空闲"], false⟩ :=
  (lockdown_orchestrator .Triggered ⟨false, .CaptureOnly⟩).2.2.2.1 rfl rfl

/-- C6: a preparation timer that fires when the status is no longer
`Preparing` performs no transition and starts no listener; and a toggle
accepted during `Preparing` resets the status to `Idle`, so the scheduled
`Preparing→Active` transition is prevented and the final status is `Idle`. -/
theorem arming_cancel (status : MonitoringState) (f : MonFlags) (lc : Bool)
    (now : Nat) (sys : ToggleSys) :
    (status ≠ .Preparing → preparation_timer_body status f lc = ⟨status, f, [], false⟩) ∧
    (sys.status = .Preparing →
      ¬ now - sys.last_toggle_time < SHORTCUT_DEBOUNCE_TIME_MS →
      (toggle_monitoring now sys).sys.status = .Idle ∧
      preparation_timer_body (toggle_monitoring now sys).sys.status f lc =
        ⟨.Idle, f, [], false⟩) := by
  constructor
  · intro h
    simp [preparation_timer_body, h]
  · intro hs hd
    have ht : (toggle_monitoring now sys).sys.status = .Idle := by
      simp [toggle_monitoring, hd, hs, set_status, transition_to]
    exact ⟨ht, by simp [preparation_timer_body, ht]⟩

/-- Witness for C6: cancelling during `Preparing` leaves the final status
`Idle` after the timer fires. -/
theorem arming_cancel_witness :
    preparation_timer_body
      (toggle_monitoring 600 ⟨.Preparing, ⟨false, false, 0, 0, false⟩, 0⟩).sys.status
      ⟨false, false, 0, 0, false⟩ true = ⟨.Idle, ⟨false, false, 0, 0, false⟩, [], false⟩ :=
  ((arming_cancel .Active ⟨false, false, 0, 0, false⟩ true 600
      ⟨.Preparing, ⟨false, false, 0, 0, false⟩, 0⟩).2 rfl (by decide)).2

/-- Inside the 500 ms debounce window a toggle returns immediately: only the
health check ran, nothing else changed, nothing was scheduled. -/
theorem toggle_monitoring_rejected (now : Nat) (sys : ToggleSys)
    (hd : now - sys.last_toggle_time < SHORTCUT_DEBOUNCE_TIME_MS) :
    toggle_monitoring now sys =
      ⟨⟨sys.status, (health_check sys.flags).1, sys.last_toggle_time⟩,
        [], false, false, false⟩ := by
  simp [toggle_monitoring, hd]

/-- The health check touches only the armed flag. -/
theorem health_check_preserves_shortcut_fields (f : MonFlags) :
    (health_check f).1.shortcut_in_progress = f.shortcut_in_progress ∧
    (health_check f).1.last_shortcut_time = f.last_shortcut_time := by
  unfold health_check
  split_ifs <;> simp

/-- An accepted toggle records its own instant as the last accepted one. -/
theorem toggle_monitoring_accepted_time (now : Nat) (sys : ToggleSys)
    (hacc : (toggle_monitoring now sys).accepted = true) :
    (toggle_monitoring now sys).sys.last_toggle_time = now := by
  by_cases hd : now - sys.last_toggle_time < SHORTCUT_DEBOUNCE_TIME_MS
  · rw [toggle_monitoring_rejected now sys hd] at hacc
    simp at hacc
  · obtain ⟨s, f, lt⟩ := sys
    simp only at hd
    cases s <;> simp [toggle_monitoring, hd, set_status, transition_to]

/-- C7: a toggle arriving less than 500 ms after the last accepted toggle is
rejected before any state transition and before the settling flags are
touched — status, settling flag, shortcut timestamp and last-accepted
instant are all unchanged and no delayed task is spawned — so two toggles
less than 500 ms apart produce at most one state change. -/
theorem toggle_debounce (sys : ToggleSys) (n1 n2 : Nat)
    (hacc : (toggle_monitoring n1 sys).accepted = true)
    (hlt : n2 - n1 < SHORTCUT_DEBOUNCE_TIME_MS) :
    (toggle_monitoring n2 (toggle_monitoring n1 sys).sys).accepted = false ∧
    (toggle_monitoring n2 (toggle_monitoring n1 sys).sys).sys.status =
      (toggle_monitoring n1 sys).sys.status ∧
    (toggle_monitoring n2 (toggle_monitoring n1 sys).sys).sys.flags.shortcut_in_progress =
      (toggle_monitoring n1 sys).sys.flags.shortcut_in_progress ∧
    (toggle_monitoring n2 (toggle_monitoring n1 sys).sys).sys.flags.last_shortcut_time =
      (toggle_monitoring n1 sys).sys.flags.last_shortcut_time ∧
    (toggle_monitoring n2 (toggle_monitoring n1 sys).sys).sys.last_toggle_time =
      (toggle_monitoring n1 sys).sys.last_toggle_time ∧
    (toggle_monitoring n2 (toggle_monitoring n1 sys).sys).scheduled_preparation = false ∧
    (toggle_monitoring n2 (toggle_monitoring n1 sys).sys).scheduled_flag_clear = false ∧
    (toggle_monitoring n2 (toggle_monitoring n1 sys).sys).emitted = [] := by
  have hl := toggle_monitoring_accepted_time n1 sys hacc
  have hd2 : n2 - (toggle_monitoring n1 sys).sys.last_toggle_time <
      SHORTCUT_DEBOUNCE_TIME_MS := by rw [hl]; exact hlt
  rw [toggle_monitoring_rejected n2 (toggle_monitoring n1 sys).sys hd2]
  have hp := health_check_preserves_shortcut_fields (toggle_monitoring n1 sys).sys.flags
  exact ⟨rfl, rfl, hp.1, hp.2, rfl, rfl, rfl, rfl⟩

/-- Witness for C7: after an accepted toggle at 600 ms, a toggle at 700 ms is
rejected with the status unchanged. -/
theorem toggle_debounce_witness :
    (toggle_monitoring 700
      (toggle_monitoring 600 ⟨.Idle, ⟨false, false, 0, 0, false⟩, 0⟩).sys).accepted = false ∧
    (toggle_monitoring 700
      (toggle_monitoring 600 ⟨.Idle, ⟨false, false, 0, 0, false⟩, 0⟩).sys).sys.status =
      (toggle_monitoring 600 ⟨.Idle, ⟨false, false, 0, 0, false⟩, 0⟩).sys.status :=
  have h := toggle_debounce ⟨.Idle, ⟨false, false, 0, 0, false⟩, 0⟩ 600 700
    (by decide) (by decide)
  ⟨h.1, h.2.1⟩

/-- C8: a tick while armed stops the recording exactly when the idle time
exceeds 20 000 ms with a recording running, and requests a start exactly
when the idle time is at most 20 000 ms with none running; a start request
against an existing recording process is a no-op (never a duplicate), and a
tick with the armed flag cleared terminates the loop without touching the
recording. -/
theorem idle_supervisor_tick (armed : Bool) (ct la : Nat) (rec : Bool) :
    (armed = false → idle_check_tick armed ct la rec = ⟨rec, false, false, true⟩) ∧
    (armed = true →
      ((idle_check_tick armed ct la rec).stopped_recording = true ↔
        (ct - la > 20000 ∧ rec = true))) ∧
    (armed = true →
      ((idle_check_tick armed ct la rec).requested_start = true ↔
        (ct - la ≤ 20000 ∧ rec = false))) ∧
    start_screen_recording true = (true, false) ∧
    (armed = true → ct - la > 20000 → rec = true →
      (idle_check_tick armed ct la rec).recording = false) ∧
    (armed = true → ct - la ≤ 20000 → rec = false →
      (idle_check_tick armed ct la rec).recording = true) ∧
    (armed = true → (idle_check_tick armed ct la rec).loop_terminated = false) := by
  by_cases hi : 20000 < ct - la
  · have hi2 : ¬ ct - la ≤ 20000 := by omega
    cases armed <;> cases rec <;>
      simp [idle_check_tick, start_screen_recording, hi, hi2]
  · have hi2 : ct - la ≤ 20000 := by omega
    cases armed <;> cases rec <;>
      simp [idle_check_tick, start_screen_recording, hi, hi2]

/-- Witness for C8: an armed tick after 25 s of inactivity stops the running
recording. -/
theorem idle_supervisor_tick_witness :
    (idle_check_tick true 25001 0 true).stopped_recording = true ∧
    (idle_check_tick true 25001 0 true).recording = false :=
  have h := idle_supervisor_tick true 25001 0 true
  ⟨(h.2.1 rfl).mpr (by decide), h.2.2.2.2.1 rfl (by decide) rfl⟩

/-- C9: a shortcut string failing the format validation is rejected with an
error and the stored shortcut is left unchanged, whatever the external
registration would have done; and the validator rejects exactly the strings
with fewer than two `'+'`-separated parts, a non-final part outside
Ctrl/Alt/Shift/Meta/Cmd, or a final part that is empty or itself a modifier
name. -/
theorem invalid_shortcut_rejected (stored s : String) (reg : Bool)
    (h : is_valid_shortcut s = false) :
    set_shortcut_key stored s reg = (stored, .error "无效的快捷键格式") ∧
    (∀ (t : String), (is_valid_shortcut t = false ↔
      ((splitPlus t).length < 2 ∨
       (∃ m ∈ (splitPlus t).dropLast,
         m ∉ (["Ctrl", "Alt", "Shift", "Meta", "Cmd"] : List String)) ∨
       (splitPlus t).getLastD "" = "" ∨
       (splitPlus t).getLastD "" ∈
         (["Ctrl", "Alt", "Shift", "Meta", "Cmd"] : List String)))) := by
  constructor
  · simp [set_shortcut_key, h]
  · intro t
    by_cases hl : (splitPlus t).length < 2
    · simp [is_valid_shortcut, hl]
    · rw [← not_iff_not]
      push_neg
      simp only [Bool.not_eq_false]
      simp [is_valid_shortcut, hl, List.all_eq_true]
      constructor
      · rintro ⟨⟨h1, h2⟩, ⟨⟨⟨h3, h4⟩, h5⟩, h6⟩, h7⟩
        refine ⟨by omega, ?_, h2, h3, h4, h5, h6, h7⟩
        intro m hm
        rcases h1 m hm with (((hc | hc) | hc) | hc) | hc <;> tauto
      · rintro ⟨-, h1, h2, h3, h4, h5, h6, h7⟩
        refine ⟨⟨?_, h2⟩, ⟨⟨⟨h3, h4⟩, h5⟩, h6⟩, h7⟩
        intro m hm
        rcases h1 m hm with hc | hc | hc | hc | hc <;> tauto

/-- Witness for C9: the single-part string "Ctrl" is rejected and the stored
shortcut stays "Alt+L". -/
theorem invalid_shortcut_rejected_witness :
    set_shortcut_key "Alt+L" "Ctrl" true = ("Alt+L", .error "无效的快捷键格式") :=
  (invalid_shortcut_rejected "Alt+L" "Ctrl" true (by decide)).1
